import Mathlib

/-!
Shallow embedding of `capture.go` from the `echosentry` repository: an Echo
middleware that recovers panics raised by a wrapped handler, builds a raven
(Sentry) packet enriched with request data, dispatches it, and registers the
normalized error on the per-request error channel.

Modelling conventions:
- Go `map[string]string` is an association list; a `nil` map is `Option.none`.
- The raven client library is an external collaborator; its constructors
  (`NewStacktrace`, `NewHttp`, `NewException`, `NewPacket`,
  `NewPacketWithExtra`) are modelled as pure record builders, and
  `Client.Capture` as appending the `(packet, tags)` pair to an output list.
- The ambient call stack at fault time is an explicit parameter (a list of
  frames), so that `raven.NewStacktrace(2, 3, nil)` becomes `List.drop 2`.
- Panic payloads are modelled as non-nil Go values with their `fmt.Sprint`
  rendering (Go 1.21 semantics: `recover` never yields `nil` while
  panicking, so the `rval != nil` guard in the source always holds on a
  panic).
- `log.Fatal` terminates the process; a setup call that hits it is modelled
  as `Except.error` (no successor state exists).
-/

namespace Echosentry

/-- Go `map[string]string` value (association list). A Go `nil` map is
represented as `Option.none` at use sites. -/
abbrev Tags := List (String × String)

/-- The raven client handle, opaque apart from the DSN it was built from. -/
structure Client where
  dsn : String
deriving Repr, DecidableEq

/-- An HTTP request as seen through `echo.Context`: method, URL, headers and
an optional body stream (`none` models a `nil` `Request().Body`; `some s`
models a stream whose remaining content at read time is `s`). -/
structure Request where
  method : String
  url : String
  headers : List (String × String)
  body : Option String
deriving Repr, DecidableEq

/-- The `echo.Context` passed to the wrapped handler. -/
structure Context where
  request : Request
deriving Repr, DecidableEq

/-- The `raven.Http` record. The zero value (all fields empty) is the
placeholder produced by the composite literal in the source. -/
structure Http where
  url : String := ""
  method : String := ""
  headers : List (String × String) := []
deriving Repr, DecidableEq

/-- The empty placeholder used when HTTP context capture is disabled. -/
def emptyHttp : Http := {}

/-- Model of the collaborator `raven.NewHttp`: builds the HTTP context record
from the live request. -/
def ravenNewHttp (r : Request) : Http :=
  { url := r.url, method := r.method, headers := r.headers }

/-- One frame of the runtime call stack (opaque). -/
abbrev Frame := String

/-- The raven stack-trace snapshot: frames starting `skip` levels above the
capture point, with a bounded number of trailing context lines per frame. -/
structure Stacktrace where
  frames : List Frame
  contextLines : Nat
deriving Repr, DecidableEq

/-- Model of the collaborator `raven.NewStacktrace(skip, context, nil)`:
drops `skip` frames from the ambient stack and records the context bound. -/
def ravenNewStacktrace (skip contextBound : Nat) (stack : List Frame) : Stacktrace :=
  { frames := stack.drop skip, contextLines := contextBound }

/-- Model of the collaborator `raven.NewException`: bundles the error's
message with the captured stack trace. -/
structure ExceptionRecord where
  errMsg : String
  stacktrace : Stacktrace
deriving Repr, DecidableEq

/-- The builder corresponding to `raven.NewException(err, st)`. -/
def ravenNewException (errMsg : String) (st : Stacktrace) : ExceptionRecord :=
  { errMsg := errMsg, stacktrace := st }

/-- Extra payload data (`raven.Extra`), an association list. -/
abbrev Extra := List (String × String)

/-- The outgoing raven packet. `extra = none` is the shape built by
`raven.NewPacket` (no extra section at all); `extra = some _` is the shape
built by `raven.NewPacketWithExtra`. -/
structure Packet where
  message : String
  extra : Option Extra
  exception : ExceptionRecord
  http : Http
deriving Repr, DecidableEq

/-- Model of `raven.NewPacket(msg, stacktrace, httpContext)`. -/
def ravenNewPacket (msg : String) (exc : ExceptionRecord) (http : Http) : Packet :=
  { message := msg, extra := none, exception := exc, http := http }

/-- Model of `raven.NewPacketWithExtra(msg, extra, stacktrace, httpContext)`. -/
def ravenNewPacketWithExtra (msg : String) (extra : Extra) (exc : ExceptionRecord)
    (http : Http) : Packet :=
  { message := msg, extra := some extra, exception := exc, http := http }

/-- The `Sentry` struct of the source: the context-capture toggle, the raven
client handle (`none` until `SetDSN` succeeds) and the last-extracted tag
map (`none` models the Go `nil` map of a fresh process). -/
structure Sentry where
  withContext : Bool
  ravenClient : Option Client
  tags : Option Tags
deriving Repr, DecidableEq

/-- The process-wide mutable globals of the source: the `sentry` struct and
the `tagsFunc` extractor reference. -/
structure Globals where
  sentry : Sentry
  tagsFunc : Option (Context → Tags)

/-- The state of the globals right after process init: the zero-valued
`Sentry` struct (`var sentry = &Sentry{}`) with `withContext` then set to
`true` by `init()`; no client, `nil` tag map. -/
def initSentry : Sentry :=
  { withContext := true, ravenClient := none, tags := none }

/-- `SetDSN`: builds a raven client from the DSN and stores it. The
collaborator `raven.New` is passed in as a function; on its error,
`log.Fatal` terminates the process (`Except.error`), so no state in which a
null client was stored is ever produced. -/
def SetDSN (ravenNew : String → Except String Client) (dsn : String) (s : Sentry) :
    Except String Sentry :=
  match ravenNew dsn with
  | .error e => .error e
  | .ok client => .ok { s with ravenClient := some client }

/-- `WithContext`: unconditional overwrite of the context-capture toggle. -/
def WithContext (yepnope : Bool) (s : Sentry) : Sentry :=
  { s with withContext := yepnope }

/-- `SetTags`: unconditional overwrite of the extractor reference (`none`
models a `nil` `TagsFunc`). -/
def SetTags (fn : Option (Context → Tags)) (g : Globals) : Globals :=
  { g with tagsFunc := fn }

/-- A non-nil Go value passed to `panic`, together with enough structure to
render it the way `fmt.Sprint` does. -/
inductive GoValue
  | str (s : String)
  | err (msg : String)
  | int (n : Int)
deriving Repr, DecidableEq

/-- `fmt.Sprint` on the modelled panic payloads: a string renders as itself,
an error as its message, an integer in decimal. -/
def fmtSprint : GoValue → String
  | .str s => s
  | .err m => m
  | .int n => toString n

/-- Outcome of executing the wrapped handler `h(c)`: either a normal return
carrying the handler's error result (`none` = `nil`), or a panic carrying
its payload. -/
inductive HandlerOutcome
  | normal (err : Option String)
  | panics (rval : GoValue)
deriving Repr, DecidableEq

/-- The body bytes read at fault time (lines 79-82 of the source): `nil`
body stream yields no read, otherwise the stream is read fully. -/
def bodyBytes (c : Context) : String :=
  match c.request.body with
  | some b => b
  | none => ""

/-- Everything observable about one invocation of the wrapped handler:
the wrapper's own return value, the `Capture` calls made on the raven
client (packet together with the tags argument), the errors registered via
`c.Error`, and the `sentry` globals afterwards. -/
structure MiddlewareResult where
  returned : Option String
  dispatched : List (Packet × Option Tags)
  registered : List String
  sentry : Sentry

/-- The handler returned by `Middleware()` applied to `c`, given the globals,
the ambient call stack at the fault point, and the outcome of `h(c)`.
On a normal return the deferred `recover` yields `nil` and the handler's
result is passed through untouched. On a panic the deferred function builds
the exception from `fmt.Sprint(rval)` and `raven.NewStacktrace(2, 3, nil)`,
chooses the HTTP context by the toggle, overwrites `sentry.Tags` when an
extractor is registered, reads the body, builds the packet with or without
the extra section, dispatches it with the current tags, registers the error
on the context, and lets the wrapper return the zero value `nil`. -/
def middleware (g : Globals) (stack : List Frame) (c : Context)
    (outcome : HandlerOutcome) : MiddlewareResult :=
  match outcome with
  | .normal err =>
      { returned := err, dispatched := [], registered := [], sentry := g.sentry }
  | .panics rval =>
      let errorMsg := fmtSprint rval
      let exc := ravenNewException errorMsg (ravenNewStacktrace 2 3 stack)
      let httpContext := if g.sentry.withContext then ravenNewHttp c.request else emptyHttp
      let sentry1 :=
        match g.tagsFunc with
        | some f => { g.sentry with tags := some (f c) }
        | none => g.sentry
      let body := bodyBytes c
      let packet :=
        if body.length > 0 then
          ravenNewPacketWithExtra errorMsg [("requestBody", body)] exc httpContext
        else
          ravenNewPacket errorMsg exc httpContext
      { returned := none
        dispatched := [(packet, sentry1.tags)]
        registered := [errorMsg]
        sentry := sentry1 }

/-- Concrete globals used in concrete evaluations: the post-init `Sentry`
state after a successful `SetDSN` (client stored, toggle still `true`, `nil`
tag map), with no extractor registered. -/
def gPlain : Globals :=
  { sentry := { withContext := true
                ravenClient := some { dsn := "https://public@sentry.example.com/1" }
                tags := none }
    tagsFunc := none }

/-- Concrete globals with a tag extractor registered. -/
def gExt : Globals :=
  { sentry := initSentry, tagsFunc := some (fun _ => [("env", "prod")]) }

/-- A concrete request context. -/
def cOne : Context :=
  { request := { method := "GET"
                 url := "http://example.com/a"
                 headers := [("User-Agent", "ua")]
                 body := some "" } }

/-- A concrete ambient call stack (deeper than the skip depth of 2). -/
def stackOne : List Frame := ["frame0", "frame1", "frame2", "frame3"]

/-- A small executable stand-in for the collaborator `raven.New`: a DSN
without a public-key (user) part is malformed, mirroring raven-go's
`ErrMissingUser`. -/
def ravenNewModel (dsn : String) : Except String Client :=
  if ("@".data).all (fun ch => ch ∈ dsn.data) then .ok { dsn := dsn }
  else .error "raven: dsn missing public key"

/-- C1: every handler invocation that panics is intercepted inside the
wrapper: exactly one report is dispatched, the normalized error
(`fmt.Sprint` of the payload) is registered on the per-request error
channel via `c.Error`, and the wrapper returns normally with the zero
value rather than letting the fault propagate. -/
theorem c1_panic_intercepted (g : Globals) (stack : List Frame) (c : Context)
    (rval : GoValue) :
    (middleware g stack c (.panics rval)).dispatched.length = 1
    ∧ (middleware g stack c (.panics rval)).registered = [fmtSprint rval]
    ∧ (middleware g stack c (.panics rval)).returned = none :=
  ⟨rfl, rfl, rfl⟩

/-- C2: a handler invocation that returns normally — with `nil` or with an
ordinary error value — passes through untouched: the wrapper returns
exactly the handler's result, dispatches nothing, registers nothing, and
leaves the shared configuration unchanged. -/
theorem c2_normal_passthrough (g : Globals) (stack : List Frame) (c : Context)
    (err : Option String) :
    middleware g stack c (.normal err)
      = { returned := err, dispatched := [], registered := [], sentry := g.sentry } :=
  rfl

/-- C3: every captured fault produces a packet of exactly one of two shapes:
a non-empty body read at fault time yields an extra section holding exactly
that body under the fixed key "requestBody"; an empty body (or absent body
stream, which reads as empty) yields a packet with no extra section at all. -/
theorem c3_extra_shapes (g : Globals) (stack : List Frame) (c : Context)
    (rval : GoValue) :
    (middleware g stack c (.panics rval)).dispatched.map (fun pr => pr.fst.extra)
      = [if (bodyBytes c).length > 0 then some [("requestBody", bodyBytes c)] else none] := by
  by_cases h : (bodyBytes c).length > 0 <;>
    simp [middleware, ravenNewPacket, ravenNewPacketWithExtra, h]

/-- C4: with a tag extractor registered (single in-flight request), a
captured fault invokes the extractor on the failing request's context,
overwrites the shared tag map with its output, and dispatches the report
with exactly that output as its tags argument. -/
theorem c4_tag_extractor (g : Globals) (stack : List Frame) (c : Context)
    (rval : GoValue) (f : Context → Tags) (h : g.tagsFunc = some f) :
    (middleware g stack c (.panics rval)).sentry.tags = some (f c)
    ∧ (middleware g stack c (.panics rval)).dispatched.map (fun pr => pr.snd)
        = [some (f c)] := by
  constructor <;> simp [middleware, h]

theorem c4_tag_extractor_witness :
    (middleware gExt stackOne cOne (.panics (.str "boom"))).sentry.tags
        = some [("env", "prod")]
    ∧ (middleware gExt stackOne cOne (.panics (.str "boom"))).dispatched.map
          (fun pr => pr.snd)
        = [some [("env", "prod")]] :=
  c4_tag_extractor gExt stackOne cOne (.str "boom") (fun _ => [("env", "prod")]) rfl

/-- C5: for every captured fault, the dispatched packet's HTTP context is
the empty placeholder whenever the context-capture toggle is off, regardless
of the request, and is built from the live request whenever it is on. -/
theorem c5_http_toggle (g : Globals) (stack : List Frame) (c : Context)
    (rval : GoValue) :
    (middleware g stack c (.panics rval)).dispatched.map (fun pr => pr.fst.http)
      = [if g.sentry.withContext then ravenNewHttp c.request else emptyHttp] := by
  by_cases h : g.sentry.withContext <;> by_cases hb : (bodyBytes c).length > 0 <;>
    simp [middleware, ravenNewPacket, ravenNewPacketWithExtra, h, hb]

/-- C6: for every captured fault the packet's message is the `fmt.Sprint`
normalization of the panic payload, its stack trace is captured 2 frames
above the fault point with 3 trailing context lines, and the error
registered on the channel carries that same message; concretely, a fresh
setup with a valid endpoint, the toggle on and no extractor, faulting with
"boom" on a request with an empty body, dispatches exactly one packet with
message "boom", a non-empty stack trace, a non-empty HTTP context, `nil`
tags and no extra section. -/
theorem c6_message_and_scenario :
    (∀ (g : Globals) (stack : List Frame) (c : Context) (rval : GoValue),
        (middleware g stack c (.panics rval)).dispatched.map (fun pr => pr.fst.message)
            = [fmtSprint rval]
        ∧ (middleware g stack c (.panics rval)).dispatched.map
              (fun pr => pr.fst.exception.stacktrace)
            = [ravenNewStacktrace 2 3 stack]
        ∧ (middleware g stack c (.panics rval)).registered = [fmtSprint rval])
    ∧ ((middleware gPlain stackOne cOne (.panics (.str "boom"))).dispatched
          = [(ravenNewPacket "boom"
                (ravenNewException "boom" (ravenNewStacktrace 2 3 stackOne))
                (ravenNewHttp cOne.request), none)]
       ∧ (ravenNewStacktrace 2 3 stackOne).frames ≠ []
       ∧ ravenNewHttp cOne.request ≠ emptyHttp
       ∧ (middleware gPlain stackOne cOne (.panics (.str "boom"))).registered
          = ["boom"]) := by
  constructor
  · intro g stack c rval
    refine ⟨?_, ?_, rfl⟩ <;>
      by_cases h : (bodyBytes c).length > 0 <;>
        simp [middleware, ravenNewPacket, ravenNewPacketWithExtra,
          ravenNewException, h]
  · exact ⟨by decide, by decide, by decide, rfl⟩

/-- C7: `SetDSN` with a malformed address hits `log.Fatal` (modelled as
`Except.error`: the process terminates and no state storing a null client
is ever produced), and with a valid address it stores the constructed
client in the shared configuration. -/
theorem c7_setdsn (ravenNew : String → Except String Client) (dsn : String)
    (s : Sentry) :
    (∀ e, ravenNew dsn = .error e → SetDSN ravenNew dsn s = .error e)
    ∧ (∀ client, ravenNew dsn = .ok client →
        SetDSN ravenNew dsn s = .ok { s with ravenClient := some client }) := by
  constructor
  · intro e h
    simp [SetDSN, h]
  · intro client h
    simp [SetDSN, h]

theorem c7_setdsn_witness :
    SetDSN ravenNewModel "bogus" initSentry = .error "raven: dsn missing public key"
    ∧ SetDSN ravenNewModel "https://key@host/1" initSentry
        = .ok { initSentry with
                  ravenClient := some { dsn := "https://key@host/1" } } :=
  ⟨(c7_setdsn ravenNewModel "bogus" initSentry).1 _ rfl,
   (c7_setdsn ravenNewModel "https://key@host/1" initSentry).2 _ rfl⟩

/-- C8: the context-capture toggle is `true` at process init, `WithContext`
unconditionally overwrites it, and a subsequent capture chooses its HTTP
context by the newly written value. -/
theorem c8_context_toggle (b : Bool) (s : Sentry) (tf : Option (Context → Tags))
    (stack : List Frame) (c : Context) (rval : GoValue) :
    initSentry.withContext = true
    ∧ (WithContext b s).withContext = b
    ∧ (middleware { sentry := WithContext b s, tagsFunc := tf } stack c
          (.panics rval)).dispatched.map (fun pr => pr.fst.http)
        = [if b then ravenNewHttp c.request else emptyHttp] := by
  refine ⟨rfl, rfl, ?_⟩
  cases b <;> by_cases h : (bodyBytes c).length > 0 <;>
    simp [middleware, WithContext, ravenNewPacket, ravenNewPacketWithExtra, h]

/-- C9: a capture with no extractor registered leaves the shared tag map
unchanged and dispatches with its pre-existing value (`nil` on a fresh
process); hence an extractor-less fault that follows an extractor-bearing
capture is dispatched with the earlier capture's tags, not with empty ones. -/
theorem c9_no_extractor_tags (g : Globals) (stack stackB : List Frame)
    (c cB : Context) (rval rvalB : GoValue) (f : Context → Tags)
    (h : g.tagsFunc = none) :
    ((middleware g stack c (.panics rval)).sentry.tags = g.sentry.tags
      ∧ (middleware g stack c (.panics rval)).dispatched.map (fun pr => pr.snd)
          = [g.sentry.tags])
    ∧ (middleware
          { sentry := (middleware { sentry := g.sentry, tagsFunc := some f }
                stackB cB (.panics rvalB)).sentry
            tagsFunc := none } stack c (.panics rval)).dispatched.map
          (fun pr => pr.snd)
        = [some (f cB)] := by
  refine ⟨⟨?_, ?_⟩, ?_⟩ <;> simp [middleware, h]

theorem c9_no_extractor_tags_witness :
    (((middleware gPlain stackOne cOne (.panics (.str "boom"))).sentry.tags
          = gPlain.sentry.tags
      ∧ (middleware gPlain stackOne cOne (.panics (.str "boom"))).dispatched.map
            (fun pr => pr.snd)
          = [gPlain.sentry.tags])
    ∧ (middleware
          { sentry := (middleware
                { sentry := gPlain.sentry, tagsFunc := some (fun _ => [("env", "prod")]) }
                stackOne cOne (.panics (.str "pow"))).sentry
            tagsFunc := none } stackOne cOne (.panics (.str "boom"))).dispatched.map
          (fun pr => pr.snd)
        = [some [("env", "prod")]]) :=
  c9_no_extractor_tags gPlain stackOne stackOne cOne cOne (.str "boom") (.str "pow")
    (fun _ => [("env", "prod")]) rfl

/-- C10: when the handler panics, the wrapper's own return value is the zero
value `nil`, not the normalized error; that error reaches the caller only
through the per-request `c.Error` registration. -/
theorem c10_wrapper_returns_nil (g : Globals) (stack : List Frame) (c : Context)
    (rval : GoValue) :
    (middleware g stack c (.panics rval)).returned = none
    ∧ (middleware g stack c (.panics rval)).registered = [fmtSprint rval] :=
  ⟨rfl, rfl⟩

end Echosentry
